import Mathlib

/-!
Verification development for the medicare_rebuild data pipeline.

The Python sources under src/ are shallowly embedded as executable Lean
definitions: pandas dataframes become lists of row structures, missing
values (NaN / None) become Option, and the pure field standardizers of
src/utils/dataframe_utils.py become Lean functions on String / List Char.
Each embedded definition cites the source function it translates.
-/

/- ---------------------------------------------------------------- -/
/- Python string primitives used by the standardizers.              -/
/- ---------------------------------------------------------------- -/

/-- Python whitespace predicate used by str.strip (the ASCII whitespace
characters: space, tab, newline, carriage return, vertical tab, form feed). -/
def pyIsSpace (c : Char) : Bool :=
  c = ' ' || c = '\t' || c = '\n' || c = '\r' || c = Char.ofNat 11 || c = Char.ofNat 12

/-- Python str.strip on a character list: remove leading and trailing
whitespace. -/
def pyStripList (l : List Char) : List Char :=
  ((l.dropWhile pyIsSpace).reverse.dropWhile pyIsSpace).reverse

/-- Python str.strip. -/
def pyStrip (s : String) : String := String.mk (pyStripList s.data)

/-- Python str.lower (ASCII). -/
def pyLower (s : String) : String := String.mk (s.data.map Char.toLower)

/-- Python str.upper (ASCII). -/
def pyUpper (s : String) : String := String.mk (s.data.map Char.toUpper)

/-- Python str.title on ASCII text: a letter that follows a non-letter is
upper-cased, every other letter is lower-cased, non-letters pass through.
The boolean argument records whether the previous character was a letter. -/
def pyTitleGo : Bool → List Char → List Char
  | _, [] => []
  | prevAlpha, c :: rest =>
    if c.isAlpha then
      (if prevAlpha then c.toLower else c.toUpper) :: pyTitleGo true rest
    else
      c :: pyTitleGo false rest

/-- Python str.title. -/
def pyTitle (s : String) : String := String.mk (pyTitleGo false s.data)

/-- Python str(x) for a nullable string cell: the float NaN that pandas uses
for a missing value prints as the three-character string nan. -/
def strOfCell : Option String → String
  | none => "nan"
  | some s => s

/-- Prepend a character to the first field of a split result. -/
def consField (x : Char) : List (List Char) → List (List Char)
  | [] => [[x]]
  | h :: t => (x :: h) :: t

/-- Python str.split(sep) on character lists: splitting the empty text gives
one empty field, and every separator occurrence opens a new field. -/
def splitOnChar (c : Char) : List Char → List (List Char)
  | [] => [[]]
  | x :: xs =>
    if x = c then [] :: splitOnChar c xs else consField x (splitOnChar c xs)

/-- Numeric value of a decimal digit list, most significant digit first. -/
def digitsToNat (l : List Char) : Nat :=
  l.foldl (fun a c => a * 10 + (c.toNat - 48)) 0

/-- Every character of the list is a decimal digit. -/
def allDigits (l : List Char) : Bool := l.all Char.isDigit

/-- Parse a nonempty all-digit character list as a natural number. -/
def parseNatDigits (l : List Char) : Option Nat :=
  if !l.isEmpty && allDigits l then some (digitsToNat l) else none

/- ---------------------------------------------------------------- -/
/- C1: standardize_call_time.                                       -/
/- ---------------------------------------------------------------- -/

/-- Parse an HH:MM:SS clock expression into a number of seconds. -/
def parseHMS (l : List Char) : Option Nat :=
  match splitOnChar ':' l with
  | [h, m, s] =>
    match parseNatDigits h, parseNatDigits m, parseNatDigits s with
    | some hv, some mv, some sv => some (hv * 3600 + mv * 60 + sv)
    | _, _, _ => none
  | _ => none

/-- Semantics of the external library call pandas.to_timedelta(str).total_seconds()
restricted to the duration grammar the spec names: an optional prefix of a
day count followed by the word days, then an HH:MM:SS clock part. The result
is the total number of seconds; none models a parse failure (the library
raises on input of any other shape). -/
def pd_to_timedelta_secs_list (l : List Char) : Option Nat :=
  match splitOnChar ' ' (pyStripList l) with
  | [d, u, t] =>
    if u = "days".data then
      match parseNatDigits d, parseHMS t with
      | some dv, some tv => some (dv * 86400 + tv)
      | _, _ => none
    else none
  | [t] => parseHMS t
  | _ => none

/-- String-level wrapper for the duration parser. -/
def pd_to_timedelta_secs (s : String) : Option Nat :=
  pd_to_timedelta_secs_list s.data

/-- Embeds standardize_call_time (src/utils/dataframe_utils.py, 207-219): a
falsy input (null, or the empty string) yields 0; any other value is passed
through str() to pandas.to_timedelta and the total seconds are returned.
none models the exception raised on an unparsable value. -/
def standardize_call_time (call_time : Option String) : Option Nat :=
  match call_time with
  | none => some 0
  | some s => if s = "" then some 0 else pd_to_timedelta_secs s

example : standardize_call_time (some "1 days 02:30:00") = some 95400 := by rfl
example : standardize_call_time (some "02:30:00") = some 9000 := by rfl
example : standardize_call_time none = some 0 := by rfl

/- Helper lemmas about the string primitives, used to settle C1. -/

theorem dropWhile_eq_self_of_head (p : Char → Bool) (l : List Char)
    (h : ∀ c, l.head? = some c → p c = false) : l.dropWhile p = l := by
  cases l with
  | nil => rfl
  | cons a t => simp [List.dropWhile_cons, h a rfl]

theorem pyStripList_eq_self (l : List Char)
    (h1 : ∀ c, l.head? = some c → pyIsSpace c = false)
    (h2 : ∀ c, l.getLast? = some c → pyIsSpace c = false) :
    pyStripList l = l := by
  unfold pyStripList
  rw [dropWhile_eq_self_of_head _ _ h1]
  rw [dropWhile_eq_self_of_head _ _ (fun c hc => h2 c (by rwa [List.head?_reverse] at hc))]
  exact List.reverse_reverse l

theorem digit_not_space (c : Char) (h : c.isDigit = true) : pyIsSpace c = false := by
  cases hc : pyIsSpace c
  · rfl
  · exfalso
    unfold pyIsSpace at hc
    simp only [Bool.or_eq_true, decide_eq_true_eq] at hc
    rcases hc with ((((h1 | h1) | h1) | h1) | h1) | h1 <;>
      first
      | exact absurd h (by rw [h1]; decide)

theorem digit_ne_of_not_digit (c x : Char) (h : x.isDigit = true)
    (hc : c.isDigit = false) : x ≠ c := by
  intro he
  subst he
  rw [h] at hc
  simp at hc

theorem splitOnChar_append_sep (c : Char) (a b : List Char)
    (ha : ∀ x ∈ a, x ≠ c) :
    splitOnChar c (a ++ c :: b) = a :: splitOnChar c b := by
  induction a with
  | nil => simp [splitOnChar]
  | cons x xs ih =>
    have hx : x ≠ c := ha x (by simp)
    have hxs : ∀ y ∈ xs, y ≠ c := fun y hy => ha y (by simp [hy])
    have ih2 : splitOnChar c (xs.append (c :: b)) = xs :: splitOnChar c b := ih hxs
    simp only [List.cons_append, splitOnChar, if_neg hx, ih2, consField]

theorem splitOnChar_no_sep (c : Char) (a : List Char) (ha : ∀ x ∈ a, x ≠ c) :
    splitOnChar c a = [a] := by
  induction a with
  | nil => rfl
  | cons x xs ih =>
    have hx : x ≠ c := ha x (by simp)
    have hxs : ∀ y ∈ xs, y ≠ c := fun y hy => ha y (by simp [hy])
    simp only [splitOnChar, if_neg hx, ih hxs, consField]

theorem getLast?_mem_of_eq (l : List Char) (c : Char) (h : l.getLast? = some c) : c ∈ l := by
  rcases List.mem_getLast?_eq_getLast (show c ∈ l.getLast? by simp [Option.mem_def, h]) with ⟨hne, hc⟩
  rw [hc]
  exact List.getLast_mem hne

theorem getLast?_append_right (a b : List Char) (hb : b ≠ []) :
    (a ++ b).getLast? = b.getLast? := by
  rw [List.getLast?_append]
  cases hbl : b.getLast? with
  | none => exact absurd (List.getLast?_eq_none_iff.mp hbl) hb
  | some c => rfl

theorem getLast?_append_cons (a : List Char) (x : Char) (b : List Char) :
    (a ++ x :: b).getLast? = (x :: b).getLast? :=
  getLast?_append_right a (x :: b) (List.cons_ne_nil x b)

theorem mem_clock_ne (h m s : List Char) (hh : allDigits h = true)
    (hm : allDigits m = true) (hs : allDigits s = true) (c : Char)
    (hc : c.isDigit = false) (hcc : (':' : Char) ≠ c) :
    ∀ x ∈ h ++ ':' :: (m ++ ':' :: s), x ≠ c := by
  intro x hx
  simp only [List.mem_append, List.mem_cons] at hx
  rcases hx with hx | hx | hx | hx | hx
  · exact digit_ne_of_not_digit c x (List.all_eq_true.mp hh x hx) hc
  · rw [hx]; exact hcc
  · exact digit_ne_of_not_digit c x (List.all_eq_true.mp hm x hx) hc
  · rw [hx]; exact hcc
  · exact digit_ne_of_not_digit c x (List.all_eq_true.mp hs x hx) hc

theorem pd_to_timedelta_days_clock (d h m s : List Char)
    (hd : (!d.isEmpty && allDigits d) = true)
    (hh : (!h.isEmpty && allDigits h) = true)
    (hm : (!m.isEmpty && allDigits m) = true)
    (hs : (!s.isEmpty && allDigits s) = true) :
    pd_to_timedelta_secs_list (d ++ ' ' :: ("days".data ++ ' ' :: (h ++ ':' :: (m ++ ':' :: s)))) =
      some (digitsToNat d * 86400 + (digitsToNat h * 3600 + digitsToNat m * 60 + digitsToNat s)) := by
  obtain ⟨hdne, hdd⟩ := (Bool.and_eq_true _ _) ▸ hd
  obtain ⟨hhne, hhd⟩ := (Bool.and_eq_true _ _) ▸ hh
  obtain ⟨hmne, hmd⟩ := (Bool.and_eq_true _ _) ▸ hm
  obtain ⟨hsne, hsd⟩ := (Bool.and_eq_true _ _) ▸ hs
  have hdnil : d ≠ [] := by intro he; rw [he] at hdne; simp at hdne
  have hsnil : s ≠ [] := by intro he; rw [he] at hsne; simp at hsne
  obtain ⟨d0, dt, hde⟩ := List.exists_cons_of_ne_nil hdnil
  obtain ⟨s0, st, hse⟩ := List.exists_cons_of_ne_nil hsnil
  have hlast : (d ++ ' ' :: ("days".data ++ ' ' :: (h ++ ':' :: (m ++ ':' :: s)))).getLast? = s.getLast? := by
    rw [getLast?_append_cons,
        show (' ' :: ("days".data ++ ' ' :: (h ++ ':' :: (m ++ ':' :: s)))) =
          (' ' :: "days".data) ++ ' ' :: (h ++ ':' :: (m ++ ':' :: s)) from rfl,
        getLast?_append_cons,
        show (' ' :: (h ++ ':' :: (m ++ ':' :: s))) = (' ' :: h) ++ ':' :: (m ++ ':' :: s) from rfl,
        getLast?_append_cons,
        show (':' :: (m ++ ':' :: s)) = (':' :: m) ++ ':' :: s from rfl,
        getLast?_append_cons, hse, List.getLast?_cons_cons]
  have hstrip : pyStripList (d ++ ' ' :: ("days".data ++ ' ' :: (h ++ ':' :: (m ++ ':' :: s)))) =
      d ++ ' ' :: ("days".data ++ ' ' :: (h ++ ':' :: (m ++ ':' :: s))) := by
    apply pyStripList_eq_self
    · intro c hc
      rw [hde] at hc
      simp only [List.cons_append, List.head?_cons, Option.some.injEq] at hc
      rw [← hc]
      exact digit_not_space d0 (List.all_eq_true.mp hdd d0 (by rw [hde]; exact List.mem_cons_self d0 dt))
    · intro c hc
      rw [hlast] at hc
      exact digit_not_space c (List.all_eq_true.mp hsd c (getLast?_mem_of_eq s c hc))
  have hd_nosp : ∀ x ∈ d, x ≠ ' ' :=
    fun x hx => digit_ne_of_not_digit _ _ (List.all_eq_true.mp hdd x hx) (by decide)
  have hdays_nosp : ∀ x ∈ "days".data, x ≠ ' ' := by decide
  have hclock_nosp : ∀ x ∈ h ++ ':' :: (m ++ ':' :: s), x ≠ ' ' :=
    mem_clock_ne h m s hhd hmd hsd ' ' (by decide) (by decide)
  have hclock_split : splitOnChar ':' (h ++ ':' :: (m ++ ':' :: s)) = [h, m, s] := by
    have h1 : ∀ x ∈ h, x ≠ ':' :=
      fun x hx => digit_ne_of_not_digit _ _ (List.all_eq_true.mp hhd x hx) (by decide)
    have h2 : ∀ x ∈ m, x ≠ ':' :=
      fun x hx => digit_ne_of_not_digit _ _ (List.all_eq_true.mp hmd x hx) (by decide)
    have h3 : ∀ x ∈ s, x ≠ ':' :=
      fun x hx => digit_ne_of_not_digit _ _ (List.all_eq_true.mp hsd x hx) (by decide)
    rw [splitOnChar_append_sep ':' h _ h1, splitOnChar_append_sep ':' m s h2,
        splitOnChar_no_sep ':' s h3]
  have hsplit : splitOnChar ' ' (d ++ ' ' :: ("days".data ++ ' ' :: (h ++ ':' :: (m ++ ':' :: s)))) =
      [d, "days".data, h ++ ':' :: (m ++ ':' :: s)] := by
    rw [splitOnChar_append_sep ' ' d _ hd_nosp,
        splitOnChar_append_sep ' ' "days".data _ hdays_nosp,
        splitOnChar_no_sep ' ' _ hclock_nosp]
  unfold pd_to_timedelta_secs_list
  rw [hstrip, hsplit]
  simp [parseHMS, hclock_split, parseNatDigits, hd, hh, hm, hs]

/-- C1, counterexample: the claim states standardize_call_time("1 days 02:30:00")
equals 93600, but the code (pandas total_seconds) returns 95400, the actual
second count of one day, two hours and thirty minutes. -/
theorem C1_call_time_counterexample :
    standardize_call_time (some "1 days 02:30:00") = some 95400 ∧
      (some 95400 : Option Nat) ≠ some 93600 :=
  ⟨rfl, by decide⟩

/-- C1 (amended): standardize_call_time returns 0 for every null or empty
input, and for a duration string in N days HH:MM:SS form (decimal-digit
components) it returns the duration's total whole seconds
N*86400 + H*3600 + M*60 + S; in particular standardize_call_time
("1 days 02:30:00") = 95400, not 93600 as the original claim states. -/
theorem C1_call_time :
    standardize_call_time none = some 0 ∧
    standardize_call_time (some "") = some 0 ∧
    (∀ d h m s : List Char,
      (!d.isEmpty && allDigits d) = true →
      (!h.isEmpty && allDigits h) = true →
      (!m.isEmpty && allDigits m) = true →
      (!s.isEmpty && allDigits s) = true →
      standardize_call_time (some (String.mk
        (d ++ ' ' :: ("days".data ++ ' ' :: (h ++ ':' :: (m ++ ':' :: s)))))) =
        some (digitsToNat d * 86400 +
          (digitsToNat h * 3600 + digitsToNat m * 60 + digitsToNat s))) ∧
    standardize_call_time (some "1 days 02:30:00") = some 95400 := by
  refine ⟨rfl, rfl, ?_, rfl⟩
  intro d h m s hd hh hm hs
  have hdnil : d ≠ [] := by
    intro he
    rw [he] at hd
    simp at hd
  have hne : String.mk (d ++ ' ' :: ("days".data ++ ' ' :: (h ++ ':' :: (m ++ ':' :: s)))) ≠ "" := by
    intro he
    have h2 : d ++ ' ' :: ("days".data ++ ' ' :: (h ++ ':' :: (m ++ ':' :: s))) = [] :=
      congrArg String.data he
    rcases d with _ | ⟨d0, dt⟩
    · exact hdnil rfl
    · simp at h2
  show (if String.mk (d ++ ' ' :: ("days".data ++ ' ' :: (h ++ ':' :: (m ++ ':' :: s)))) = ""
        then some 0
        else pd_to_timedelta_secs (String.mk (d ++ ' ' :: ("days".data ++ ' ' :: (h ++ ':' :: (m ++ ':' :: s)))))) = _
  rw [if_neg hne]
  exact pd_to_timedelta_days_clock d h m s hd hh hm hs

/-- C1 witness: the amended theorem applied at the concrete duration
1 days 02:30:00, whose components parse to 1, 2, 30 and 0. -/
theorem C1_call_time_witness :
    standardize_call_time (some (String.mk
      (['1'] ++ ' ' :: ("days".data ++ ' ' :: (['0','2'] ++ ':' :: (['3','0'] ++ ':' :: ['0','0'])))))) =
      some (digitsToNat ['1'] * 86400 +
        (digitsToNat ['0','2'] * 3600 + digitsToNat ['3','0'] * 60 + digitsToNat ['0','0'])) :=
  C1_call_time.2.2.1 ['1'] ['0','2'] ['3','0'] ['0','0']
    (by decide) (by decide) (by decide) (by decide)

/- ---------------------------------------------------------------- -/
/- C5: standardize_dx_code.                                         -/
/- ---------------------------------------------------------------- -/

/-- The character set of the literal regex class [E|I|R] in
standardize_dx_code (src/utils/dataframe_utils.py, 137): inside a character
class the pipe is an ordinary character, so the class matches E, the pipe,
I and R. -/
def dxClassSrc : List Char := ['E', '|', 'I', 'R']

/-- The character set the claim describes: a letter in the set E, I, R. -/
def dxClassClaim : List Char := ['E', 'I', 'R']

/-- One attempt of the regex atom <class> followed by a nonempty greedy digit
run and an optional fraction (a period followed by a nonempty greedy digit
run), at the current position: on success, the matched characters and the
input remaining after the match. -/
def dxTryMatch (cls : List Char) : List Char → Option (List Char × List Char)
  | [] => none
  | c :: rest =>
    if c ∈ cls then
      match rest.takeWhile Char.isDigit with
      | [] => none
      | d :: ds =>
        match rest.dropWhile Char.isDigit with
        | [] => some (c :: d :: ds, [])
        | x :: r2 =>
          if x = '.' then
            match r2.takeWhile Char.isDigit with
            | [] => some (c :: d :: ds, x :: r2)
            | e :: es => some (c :: d :: ds ++ '.' :: e :: es, r2.dropWhile Char.isDigit)
          else some (c :: d :: ds, x :: r2)
    else none

theorem length_dropWhile_le (p : Char → Bool) (l : List Char) :
    (l.dropWhile p).length ≤ l.length := by
  induction l with
  | nil => simp
  | cons a t ih =>
    rw [List.dropWhile_cons]
    split
    · exact le_trans ih (Nat.le_succ _)
    · simp

theorem dxTryMatch_rest_length (cls l m r : List Char)
    (h : dxTryMatch cls l = some (m, r)) : r.length < l.length := by
  match l with
  | [] => simp [dxTryMatch] at h
  | c :: rest =>
    by_cases hc : c ∈ cls
    · cases hT : rest.takeWhile Char.isDigit with
      | nil => simp [dxTryMatch, hc, hT] at h
      | cons d ds =>
        cases hD : rest.dropWhile Char.isDigit with
        | nil =>
          simp only [dxTryMatch, if_pos hc, hT, hD, Option.some.injEq, Prod.mk.injEq] at h
          rw [← h.2]
          simp
        | cons x r2 =>
          by_cases hx : x = '.'
          · cases hT2 : r2.takeWhile Char.isDigit with
            | nil =>
              simp only [dxTryMatch, if_pos hc, hT, hD, if_pos hx, hT2,
                Option.some.injEq, Prod.mk.injEq] at h
              rw [← h.2]
              calc (x :: r2).length = (rest.dropWhile Char.isDigit).length := by rw [hD]
                _ ≤ rest.length := length_dropWhile_le _ _
                _ < (c :: rest).length := by simp
            | cons e es =>
              simp only [dxTryMatch, if_pos hc, hT, hD, if_pos hx, hT2,
                Option.some.injEq, Prod.mk.injEq] at h
              rw [← h.2]
              calc (r2.dropWhile Char.isDigit).length
                  ≤ r2.length := length_dropWhile_le _ _
                _ < (x :: r2).length := by simp
                _ = (rest.dropWhile Char.isDigit).length := by rw [hD]
                _ ≤ rest.length := length_dropWhile_le _ _
                _ < (c :: rest).length := by simp
          · simp only [dxTryMatch, if_pos hc, hT, hD, if_neg hx,
              Option.some.injEq, Prod.mk.injEq] at h
            rw [← h.2]
            calc (x :: r2).length = (rest.dropWhile Char.isDigit).length := by rw [hD]
              _ ≤ rest.length := length_dropWhile_le _ _
              _ < (c :: rest).length := by simp
    · simp [dxTryMatch, hc] at h

/-- Fuel-indexed worker for the finditer scan; the fuel dominates the input
length, which shrinks at every step. -/
def dxScanFuel (cls : List Char) : Nat → List Char → List (List Char)
  | 0, _ => []
  | fuel + 1, l =>
    match dxTryMatch cls l with
    | some (m, r) => m :: dxScanFuel cls fuel r
    | none =>
      match l with
      | [] => []
      | _ :: rest => dxScanFuel cls fuel rest

/-- Leftmost non-overlapping scan of re.finditer for the pattern
<class>\d+(\.\d+)?: at each position try the atom; on success continue after
the match, otherwise advance one character. -/
def dxScan (cls : List Char) (l : List Char) : List (List Char) :=
  dxScanFuel cls l.length l

/-- Shared worker of the embedded standardize_dx_code and of the claim-side
variant: trim, upper-case, extract all pattern matches, delete the periods,
join with commas. -/
def dx_code_extract (cls : List Char) (s : String) : String :=
  String.mk (List.intercalate [',']
    ((dxScan cls (pyUpper (pyStrip s)).data).map (List.filter (fun c => c != '.'))))

/-- Embeds standardize_dx_code (src/utils/dataframe_utils.py, 125-139):
str(x).strip().upper(), then re.finditer with the literal pattern whose
character class is [E|I|R] (which also matches a pipe), period removal and
comma join. -/
def standardize_dx_code (s : String) : String := dx_code_extract dxClassSrc s

/-- The extraction the claim describes, identical except that the leading
character must be a letter in the set E, I, R (no pipe). -/
def standardize_dx_code_claimed (s : String) : String := dx_code_extract dxClassClaim s

example : standardize_dx_code "E11.9, I10" = "E119,I10" := by rfl
example : standardize_dx_code "|1" = "|1" := by rfl
example : standardize_dx_code_claimed "|1" = "" := by rfl

/-- A character list is a complete match of <class>\d+(\.\d+)?: a class
character, a nonempty digit run, optionally a period and a nonempty digit
run. -/
def dxMatchWellFormed (cls : List Char) : List Char → Bool
  | [] => false
  | c :: rest =>
    decide (c ∈ cls) &&
      (!(rest.takeWhile Char.isDigit).isEmpty &&
        ((rest.dropWhile Char.isDigit).isEmpty ||
          (match rest.dropWhile Char.isDigit with
           | '.' :: r2 => !r2.isEmpty && r2.all Char.isDigit
           | _ => false)))

theorem all_takeWhile (p : Char → Bool) (l : List Char) :
    (l.takeWhile p).all p = true := by
  induction l with
  | nil => rfl
  | cons a t ih =>
    rw [List.takeWhile_cons]
    split
    · simp [*]
    · rfl

theorem takeWhile_eq_self_of_all (p : Char → Bool) (l : List Char)
    (h : l.all p = true) : l.takeWhile p = l := by
  induction l with
  | nil => rfl
  | cons a t ih =>
    simp only [List.all_cons, Bool.and_eq_true] at h
    rw [List.takeWhile_cons, if_pos h.1, ih h.2]

theorem dropWhile_eq_nil_of_all (p : Char → Bool) (l : List Char)
    (h : l.all p = true) : l.dropWhile p = [] := by
  induction l with
  | nil => rfl
  | cons a t ih =>
    simp only [List.all_cons, Bool.and_eq_true] at h
    rw [List.dropWhile_cons, if_pos h.1]
    exact ih h.2

theorem takeWhile_append_not (p : Char → Bool) (A : List Char) (b : Char) (B : List Char)
    (hA : A.all p = true) (hb : p b = false) :
    (A ++ b :: B).takeWhile p = A := by
  induction A with
  | nil => simp [List.takeWhile_cons, hb]
  | cons a t ih =>
    simp only [List.all_cons, Bool.and_eq_true] at hA
    rw [List.cons_append, List.takeWhile_cons, if_pos hA.1, ih hA.2]

theorem dropWhile_append_not (p : Char → Bool) (A : List Char) (b : Char) (B : List Char)
    (hA : A.all p = true) (hb : p b = false) :
    (A ++ b :: B).dropWhile p = b :: B := by
  induction A with
  | nil => simp [List.dropWhile_cons, hb]
  | cons a t ih =>
    simp only [List.all_cons, Bool.and_eq_true] at hA
    rw [List.cons_append, List.dropWhile_cons, if_pos hA.1, ih hA.2]

theorem dxTryMatch_wellFormed (cls l m r : List Char)
    (h : dxTryMatch cls l = some (m, r)) : dxMatchWellFormed cls m = true := by
  match l with
  | [] => simp [dxTryMatch] at h
  | c :: rest =>
    by_cases hc : c ∈ cls
    · cases hT : rest.takeWhile Char.isDigit with
      | nil => simp [dxTryMatch, hc, hT] at h
      | cons d ds =>
        have hdall : (d :: ds).all Char.isDigit = true := by
          rw [← hT]; exact all_takeWhile _ _
        cases hD : rest.dropWhile Char.isDigit with
        | nil =>
          simp only [dxTryMatch, if_pos hc, hT, hD, Option.some.injEq, Prod.mk.injEq] at h
          rw [← h.1]
          simp [dxMatchWellFormed, hc, takeWhile_eq_self_of_all _ _ hdall,
            dropWhile_eq_nil_of_all _ _ hdall]
        | cons x r2 =>
          by_cases hx : x = '.'
          · cases hT2 : r2.takeWhile Char.isDigit with
            | nil =>
              simp only [dxTryMatch, if_pos hc, hT, hD, if_pos hx, hT2,
                Option.some.injEq, Prod.mk.injEq] at h
              rw [← h.1]
              simp [dxMatchWellFormed, hc, takeWhile_eq_self_of_all _ _ hdall,
                dropWhile_eq_nil_of_all _ _ hdall]
            | cons e es =>
              have heall : (e :: es).all Char.isDigit = true := by
                rw [← hT2]; exact all_takeWhile _ _
              simp only [dxTryMatch, if_pos hc, hT, hD, if_pos hx, hT2,
                Option.some.injEq, Prod.mk.injEq] at h
              rw [← h.1]
              have ht3 : ((d :: ds) ++ '.' :: e :: es).takeWhile Char.isDigit = d :: ds :=
                takeWhile_append_not Char.isDigit (d :: ds) '.' (e :: es) hdall (by decide)
              have hd3 : ((d :: ds) ++ '.' :: e :: es).dropWhile Char.isDigit = '.' :: e :: es :=
                dropWhile_append_not Char.isDigit (d :: ds) '.' (e :: es) hdall (by decide)
              show dxMatchWellFormed cls (c :: ((d :: ds) ++ '.' :: e :: es)) = true
              simp only [dxMatchWellFormed, ht3, hd3]
              simp [hc, heall]
          · simp only [dxTryMatch, if_pos hc, hT, hD, if_neg hx,
              Option.some.injEq, Prod.mk.injEq] at h
            rw [← h.1]
            simp [dxMatchWellFormed, hc, takeWhile_eq_self_of_all _ _ hdall,
              dropWhile_eq_nil_of_all _ _ hdall]
    · simp [dxTryMatch, hc] at h

theorem dxScanFuel_wellFormed (cls : List Char) :
    ∀ fuel l m, m ∈ dxScanFuel cls fuel l → dxMatchWellFormed cls m = true := by
  intro fuel
  induction fuel with
  | zero => intro l m hm; simp [dxScanFuel] at hm
  | succ f ih =>
    intro l m hm
    cases hT : dxTryMatch cls l with
    | some p =>
      obtain ⟨mm, rr⟩ := p
      simp only [dxScanFuel, hT] at hm
      rcases List.mem_cons.mp hm with he | ht
      · rw [he]; exact dxTryMatch_wellFormed cls l mm rr hT
      · exact ih rr m ht
    | none =>
      simp only [dxScanFuel, hT] at hm
      cases l with
      | nil => simp at hm
      | cons c rest => exact ih rest m hm

theorem dxScanFuel_nil_of_no_class (cls : List Char) :
    ∀ fuel l, (∀ c ∈ l, c ∉ cls) → dxScanFuel cls fuel l = [] := by
  intro fuel
  induction fuel with
  | zero => intro l _; rfl
  | succ f ih =>
    intro l h
    cases l with
    | nil => rfl
    | cons c rest =>
      have hnone : dxTryMatch cls (c :: rest) = none := by
        simp [dxTryMatch, h c (by simp)]
      simp only [dxScanFuel, hnone]
      exact ih rest (fun x hx => h x (by simp [hx]))

/-- C5, counterexample: the claim says standardize_dx_code extracts only
substrings starting with a letter in the set E, I, R, so on an input whose
only candidate starts with a pipe the yield would be empty; the code's class
[E|I|R] also matches the pipe, and the code returns the pipe match. -/
theorem C5_dx_code_counterexample :
    standardize_dx_code "|1" = "|1" ∧
      standardize_dx_code_claimed "|1" = "" ∧ ("|1" : String) ≠ "" :=
  ⟨rfl, rfl, by decide⟩

/-- C5 (amended): standardize_dx_code upper-cases the trimmed input and
extracts the leftmost non-overlapping substrings matching
<char in the set E, pipe, I, R><digits>(.<digits>)? — the literal class
[E|I|R] of the source also matches a pipe character — strips the decimal
point from each, and joins them with commas, yielding the empty string when
nothing matches; in particular standardize_dx_code("E11.9, I10") ==
"E119,I10", and standardize_dx_code("|1") == "|1". -/
theorem C5_dx_code :
    (∀ s : String, ∀ m ∈ dxScan dxClassSrc (pyUpper (pyStrip s)).data,
        dxMatchWellFormed dxClassSrc m = true) ∧
    (∀ s : String, (∀ c ∈ (pyUpper (pyStrip s)).data, c ∉ dxClassSrc) →
        standardize_dx_code s = "") ∧
    standardize_dx_code "E11.9, I10" = "E119,I10" ∧
    standardize_dx_code "|1" = "|1" := by
  refine ⟨?_, ?_, rfl, rfl⟩
  · intro s m hm
    exact dxScanFuel_wellFormed dxClassSrc _ _ m hm
  · intro s h
    unfold standardize_dx_code dx_code_extract
    rw [show dxScan dxClassSrc (pyUpper (pyStrip s)).data = [] from
      dxScanFuel_nil_of_no_class _ _ _ h]
    rfl

/-- C5 witness: the amended theorem applied at concrete inputs — the match
E11.9 extracted from "E11.9, I10" is wellformed, and an input with no class
character yields the empty string. -/
theorem C5_dx_code_witness :
    dxMatchWellFormed dxClassSrc "E11.9".data = true ∧ standardize_dx_code "xyz" = "" :=
  ⟨C5_dx_code.1 "E11.9, I10" "E11.9".data (by decide),
   C5_dx_code.2.1 "xyz" (by decide)⟩

/- ---------------------------------------------------------------- -/
/- C4: import_all_data orchestration order.                         -/
/- ---------------------------------------------------------------- -/

/-- One step of the pipeline run, at the granularity of the claim: each
source-entity-group step covers its extraction plus its import call, and the
query steps are the fixed statements executed against the destination
engine. -/
inductive PipelineStep where
  | resetBillingTables
  | users
  | patients
  | devices
  | glucoseReadings
  | bpReadings
  | notes
  | updatePatientNoteQuery
  | updatePatientStatusQuery
  | updateUserQuery
  | updateUserNoteQuery
  deriving DecidableEq, Repr

open PipelineStep

/-- Embeds the statement sequence of import_all_data (src/main.py, 212-244):
EXEC reset_all_billing_tables; get+import users (228-229); get+import
patients (230-231); get+import devices (232-233); get+import glucose
readings (234-235); get+import blood-pressure readings (236-237); then the
four fixed update queries (240-243). No call to get_patient_note_data or
import_patient_note_data appears in the function body. -/
def import_all_data_trace : List PipelineStep :=
  [resetBillingTables,
   users,
   patients,
   devices,
   glucoseReadings,
   bpReadings,
   updatePatientNoteQuery,
   updatePatientStatusQuery,
   updateUserQuery,
   updateUserNoteQuery]

/-- C4, counterexample: the claim says the run processes the notes
source-entity-group exactly once, but the trace of import_all_data contains
no notes step at all. -/
theorem C4_pipeline_order_counterexample :
    import_all_data_trace.count PipelineStep.notes = 0 ∧ (0 : Nat) ≠ 1 :=
  ⟨by decide, by decide⟩

/-- C4 (amended): import_all_data processes users, patients, devices,
glucose readings and blood-pressure readings exactly once each, in a fixed
total order in which users precede patients, patients precede devices and
readings, and devices precede both kinds of readings, followed by a terminal
phase executing the billing/update queries; the notes group is never
processed by import_all_data (its importer method exists but is not
invoked). -/
theorem C4_pipeline_order :
    import_all_data_trace.count PipelineStep.users = 1 ∧
    import_all_data_trace.count PipelineStep.patients = 1 ∧
    import_all_data_trace.count PipelineStep.devices = 1 ∧
    import_all_data_trace.count PipelineStep.glucoseReadings = 1 ∧
    import_all_data_trace.count PipelineStep.bpReadings = 1 ∧
    import_all_data_trace.count PipelineStep.notes = 0 ∧
    import_all_data_trace.indexOf PipelineStep.users <
      import_all_data_trace.indexOf PipelineStep.patients ∧
    import_all_data_trace.indexOf PipelineStep.patients <
      import_all_data_trace.indexOf PipelineStep.devices ∧
    import_all_data_trace.indexOf PipelineStep.devices <
      import_all_data_trace.indexOf PipelineStep.glucoseReadings ∧
    import_all_data_trace.indexOf PipelineStep.devices <
      import_all_data_trace.indexOf PipelineStep.bpReadings ∧
    import_all_data_trace.indexOf PipelineStep.bpReadings <
      import_all_data_trace.indexOf PipelineStep.updatePatientNoteQuery ∧
    import_all_data_trace.indexOf PipelineStep.updatePatientNoteQuery <
      import_all_data_trace.indexOf PipelineStep.updatePatientStatusQuery ∧
    import_all_data_trace.indexOf PipelineStep.updatePatientStatusQuery <
      import_all_data_trace.indexOf PipelineStep.updateUserQuery ∧
    import_all_data_trace.indexOf PipelineStep.updateUserQuery <
      import_all_data_trace.indexOf PipelineStep.updateUserNoteQuery := by
  decide

/- ---------------------------------------------------------------- -/
/- C6: check_patient_db_constraints.                                -/
/- ---------------------------------------------------------------- -/

/-- The patient-export columns that check_patient_db_constraints inspects.
Each field holds the string image len(str(x)) sees for that cell; the
remaining dataframe columns never influence the filter and ride along in
rest. -/
structure PatientConstraintRow where
  phone_number : String
  social_security : String
  temp_state : String
  zipcode : String
  emergency_phone_number : String
  emergency_phone_number2 : String
  medicare_beneficiary_id : String
  primary_payer_id : String
  secondary_payer_id : String
  rest : String
  deriving DecidableEq, Repr

/-- Embeds check_patient_db_constraints (src/utils/dataframe_utils.py,
620-630): nine successive boolean-mask row selections, each keeping the rows
whose named column has string length at most the destination limit. -/
def check_patient_db_constraints (df : List PatientConstraintRow) : List PatientConstraintRow :=
  let df := df.filter (fun r => r.phone_number.length ≤ 11)
  let df := df.filter (fun r => r.social_security.length ≤ 9)
  let df := df.filter (fun r => r.temp_state.length ≤ 2)
  let df := df.filter (fun r => r.zipcode.length ≤ 5)
  let df := df.filter (fun r => r.emergency_phone_number.length ≤ 11)
  let df := df.filter (fun r => r.emergency_phone_number2.length ≤ 11)
  let df := df.filter (fun r => r.medicare_beneficiary_id.length ≤ 11)
  let df := df.filter (fun r => r.primary_payer_id.length ≤ 30)
  let df := df.filter (fun r => r.secondary_payer_id.length ≤ 30)
  df

/-- The conjunction of all nine destination length limits on one row. -/
def patientRowOk (r : PatientConstraintRow) : Bool :=
  r.phone_number.length ≤ 11 && r.social_security.length ≤ 9 &&
  r.temp_state.length ≤ 2 && r.zipcode.length ≤ 5 &&
  r.emergency_phone_number.length ≤ 11 && r.emergency_phone_number2.length ≤ 11 &&
  r.medicare_beneficiary_id.length ≤ 11 && r.primary_payer_id.length ≤ 30 &&
  r.secondary_payer_id.length ≤ 30

/-- A sample row satisfying every limit, with a 10-digit phone number. -/
def patientRowPhone10 : PatientConstraintRow :=
  { phone_number := "5551234567"
    social_security := "123456789"
    temp_state := "CA"
    zipcode := "12345"
    emergency_phone_number := "15551234567"
    emergency_phone_number2 := "15557654321"
    medicare_beneficiary_id := "1EG4TE5MK73"
    primary_payer_id := "67890"
    secondary_payer_id := "54321"
    rest := "unchecked columns" }

/-- The same row with a 12-digit phone number. -/
def patientRowPhone12 : PatientConstraintRow :=
  { patientRowPhone10 with phone_number := "555123456789" }

/-- C6: check_patient_db_constraints returns exactly the input rows,
unmodified and in input order, whose fields all satisfy the destination
length limits (a single filter by the conjunction of the nine checks); a
row failing any single check is dropped whole. A row with a 12-digit phone
number is excluded while the same row with a 10-digit phone number is
retained. -/
theorem C6_constraint_filter :
    (∀ df : List PatientConstraintRow,
      check_patient_db_constraints df = df.filter patientRowOk) ∧
    check_patient_db_constraints [patientRowPhone12, patientRowPhone10] = [patientRowPhone10] ∧
    check_patient_db_constraints [patientRowPhone10] = [patientRowPhone10] := by
  refine ⟨?_, by decide, by decide⟩
  intro df
  unfold check_patient_db_constraints
  simp only []
  rw [List.filter_filter, List.filter_filter, List.filter_filter, List.filter_filter,
    List.filter_filter, List.filter_filter, List.filter_filter, List.filter_filter]
  apply List.filter_congr
  intro r _
  simp only [patientRowOk]
  ac_rfl

/- ---------------------------------------------------------------- -/
/- C7: add_id_col.                                                  -/
/- ---------------------------------------------------------------- -/

/-- A target-table row before id resolution: the natural-key column the
join runs on, and the row's remaining columns as an opaque payload. -/
structure KeyedRow where
  key : String
  payload : String
  deriving DecidableEq, Repr

/-- A row of the freshly fetched id-lookup table: natural key and the
destination surrogate id. -/
structure IdLookupRow where
  key : String
  id : Nat
  deriving DecidableEq, Repr

/-- A resolved row: the surrogate id has been added, and the type carries no
natural-key column (the merge column is dropped). -/
structure ResolvedRow where
  payload : String
  id : Nat
  deriving DecidableEq, Repr

/-- Embeds add_id_col (src/utils/dataframe_utils.py, 633-646): a pandas
inner merge of the target frame with the id frame on the key column — each
left row pairs with every lookup row carrying an equal key, left order
preserved, lookup order within a key — after which the key column is
dropped. -/
def add_id_col (df : List KeyedRow) (id_df : List IdLookupRow) : List ResolvedRow :=
  df.flatMap (fun r =>
    (id_df.filter (fun l => l.key = r.key)).map
      (fun l => { payload := r.payload, id := l.id }))

theorem filter_key_of_nodup (id_df : List IdLookupRow)
    (hnd : (id_df.map IdLookupRow.key).Nodup) (k : String) :
    id_df.filter (fun l => l.key = k) =
      match id_df.find? (fun l => l.key = k) with
      | some l => [l]
      | none => [] := by
  induction id_df with
  | nil => rfl
  | cons a t ih =>
    rw [List.map_cons, List.nodup_cons] at hnd
    by_cases ha : a.key = k
    · rw [List.filter_cons, if_pos (by simpa using ha),
        List.find?_cons_of_pos _ (by simpa using ha)]
      have ht : t.filter (fun l => l.key = k) = [] := by
        rw [List.filter_eq_nil_iff]
        intro l hl hlk
        refine hnd.1 ?_
        rw [ha, ← show l.key = k from by simpa using hlk]
        exact List.mem_map_of_mem IdLookupRow.key hl
      rw [ht]
    · rw [List.filter_cons, if_neg (by simpa using ha),
        List.find?_cons_of_neg _ (by simpa using ha)]
      exact ih hnd.2

/-- The three-row natural-key table of the claim's example. -/
def exampleTargetRows : List KeyedRow :=
  [{ key := "A", payload := "rowA" }, { key := "B", payload := "rowB" },
   { key := "C", payload := "rowC" }]

/-- The id-lookup table of the claim's example: only two of the three keys
appear. -/
def exampleIdRows : List IdLookupRow :=
  [{ key := "A", id := 1 }, { key := "C", id := 2 }]

/-- C7: with distinct lookup keys, add_id_col keeps exactly those input rows
whose key value appears in the lookup table, in input order, each carrying
the surrogate id found for its key, and silently drops the rest (inner-join
semantics); the output type has no natural-key column. On the claim's
example, a 3-row table joined against a 2-key lookup yields exactly the 2
resolved rows. -/
theorem C7_add_id_col :
    (∀ (df : List KeyedRow) (id_df : List IdLookupRow),
      (id_df.map IdLookupRow.key).Nodup →
      add_id_col df id_df = df.filterMap (fun r =>
        (id_df.find? (fun l => l.key = r.key)).map
          (fun l => { payload := r.payload, id := l.id }))) ∧
    add_id_col exampleTargetRows exampleIdRows =
      [{ payload := "rowA", id := 1 }, { payload := "rowC", id := 2 }] ∧
    (add_id_col exampleTargetRows exampleIdRows).length = 2 := by
  refine ⟨?_, by decide, by decide⟩
  intro df id_df hnd
  induction df with
  | nil => rfl
  | cons r t ih =>
    rw [show add_id_col (r :: t) id_df =
        ((id_df.filter (fun l => l.key = r.key)).map
          (fun l => { payload := r.payload, id := l.id })) ++ add_id_col t id_df from by
        simp [add_id_col]]
    rw [filter_key_of_nodup id_df hnd r.key, List.filterMap_cons, ih]
    cases hf : id_df.find? (fun l => l.key = r.key) with
    | none => simp
    | some l => simp

/-- C7 witness: the theorem applied at the example tables, whose lookup keys
are distinct. -/
theorem C7_add_id_col_witness :
    add_id_col exampleTargetRows exampleIdRows =
      exampleTargetRows.filterMap (fun r =>
        (exampleIdRows.find? (fun l => l.key = r.key)).map
          (fun l => { payload := r.payload, id := l.id })) :=
  C7_add_id_col.1 exampleTargetRows exampleIdRows (by decide)

/- ---------------------------------------------------------------- -/
/- C9: DatabaseManager.execute_query error handling.                -/
/- ---------------------------------------------------------------- -/

/-- Outcome of running the statement inside the try block (session.execute
followed by session.commit): either some exception is raised, or the
statement completes, reporting whether it produces rows and, if so, which. -/
inductive ExecOutcome where
  | failure (message : String)
  | success (returnsRows : Bool) (rows : List String)
  deriving DecidableEq, Repr

/-- Observable result of one execute_query call: the returned value (none
models the implicit Python None — the absence marker), together with the
session/logging effects of the call. -/
structure QueryRun where
  result : Option (List String)
  committed : Bool
  rolledBack : Bool
  errorLogged : Bool
  sessionClosed : Bool
  deriving DecidableEq, Repr

/-- Embeds DatabaseManager.execute_query (src/utils/db_utils.py, 84-109):
try execute+commit, return fetchall() only when the result returns rows;
on any exception roll back and log the error, returning nothing; the
session is closed in the finally block on every path. The function is total
— the exception never propagates to the caller. -/
def execute_query (outcome : ExecOutcome) : QueryRun :=
  match outcome with
  | .failure _ =>
    { result := none
      committed := false
      rolledBack := true
      errorLogged := true
      sessionClosed := true }
  | .success returnsRows rows =>
    { result := if returnsRows then some rows else none
      committed := true
      rolledBack := false
      errorLogged := false
      sessionClosed := true }

/-- C9: if executing a statement raises, execute_query rolls the transaction
back, logs the error, and returns the absence marker instead of propagating
(the embedding is a total function into QueryRun); on success the rows are
returned exactly when the statement produces rows, nothing is rolled back,
and the session is closed on every path. -/
theorem C9_execute_query :
    (∀ msg : String,
      (execute_query (.failure msg)).result = none ∧
      (execute_query (.failure msg)).rolledBack = true ∧
      (execute_query (.failure msg)).errorLogged = true ∧
      (execute_query (.failure msg)).committed = false) ∧
    (∀ (rr : Bool) (rows : List String),
      (execute_query (.success rr rows)).rolledBack = false ∧
      (execute_query (.success rr rows)).errorLogged = false ∧
      ((execute_query (.success rr rows)).result = some rows ↔ rr = true)) ∧
    (∀ o : ExecOutcome, (execute_query o).sessionClosed = true) := by
  refine ⟨fun msg => ⟨rfl, rfl, rfl, rfl⟩, fun rr rows => ⟨rfl, rfl, ?_⟩, fun o => ?_⟩
  · cases rr <;> simp [execute_query]
  · cases o <;> rfl

/- ---------------------------------------------------------------- -/
/- C10: normalize_patient_notes per-author overrides.               -/
/- ---------------------------------------------------------------- -/

/-- Embeds standardize_note_types (src/utils/dataframe_utils.py, 222-234):
one literal phrase is collapsed, then the text before the first comma is
kept (str.split always yields at least one field). -/
def standardize_note_types (note_type : String) : String :=
  let nt := if note_type = "Initial Evaluation with APRN" then "Initial Evaluation" else note_type
  match splitOnChar ',' nt.data with
  | [] => nt
  | f :: _ => String.mk f

/-- The raw merged note record, with the columns normalize_patient_notes
touches for this claim: the author (LCH_UPN), the raw call duration, and
the raw note type. -/
structure NoteRow where
  lch_upn : String
  recording_time : Option String
  time_note : String
  deriving DecidableEq, Repr

/-- The normalized note record fields produced from a NoteRow. -/
structure NormalizedNote where
  temp_user : String
  call_time_seconds : Option Nat
  temp_note_type : String
  deriving DecidableEq, Repr

/-- Embeds the Recording_Time / Time_Note / LCH_UPN handling of
normalize_patient_notes (src/utils/dataframe_utils.py, 508-522):
standardize_call_time is applied first and rows authored by Joycelynn
Harris are then forced to 900; standardize_note_types is applied first and
rows authored by the listed users are then overwritten with Initial
Evaluation, after which rows authored by the five other listed users are
overwritten with Alert. -/
def normalize_patient_notes_row (r : NoteRow) : NormalizedNote :=
  let rt := standardize_call_time r.recording_time
  let rt := if r.lch_upn ∈ ["Joycelynn Harris"] then some 900 else rt
  let tn := standardize_note_types r.time_note
  let tn := if r.lch_upn ∈ ["Joycelynn Harris", "Melanie Coffey", "Krista Lewin"]
            then "Initial Evaluation" else tn
  let tn := if r.lch_upn ∈ ["Christylyn Diosma", "Maria Albingco", "Mary Cortes",
                            "Richel Rodriguez", "Rigel Sagayno"]
            then "Alert" else tn
  { temp_user := r.lch_upn, call_time_seconds := rt, temp_note_type := tn }

/-- C10: the per-author overrides run after field standardization and
discard the standardized source values — every record authored by Joycelynn
Harris gets call duration 900 and note type Initial Evaluation regardless
of the recorded values; records by Melanie Coffey or Krista Lewin get note
type Initial Evaluation; records by any of the five listed users get note
type Alert. -/
theorem C10_note_overrides (r : NoteRow) :
    (r.lch_upn = "Joycelynn Harris" →
      (normalize_patient_notes_row r).call_time_seconds = some 900 ∧
      (normalize_patient_notes_row r).temp_note_type = "Initial Evaluation") ∧
    (r.lch_upn = "Melanie Coffey" ∨ r.lch_upn = "Krista Lewin" →
      (normalize_patient_notes_row r).temp_note_type = "Initial Evaluation") ∧
    (r.lch_upn = "Christylyn Diosma" ∨ r.lch_upn = "Maria Albingco" ∨
     r.lch_upn = "Mary Cortes" ∨ r.lch_upn = "Richel Rodriguez" ∨
     r.lch_upn = "Rigel Sagayno" →
      (normalize_patient_notes_row r).temp_note_type = "Alert") := by
  refine ⟨fun h => ?_, fun h => ?_, fun h => ?_⟩
  · constructor <;> simp [normalize_patient_notes_row, h]
  · rcases h with h | h <;> simp [normalize_patient_notes_row, h]
  · rcases h with h | h | h | h | h <;> simp [normalize_patient_notes_row, h]

/-- C10 witness: the overrides at three concrete records whose standardized
source values differ from the forced outputs. -/
theorem C10_note_overrides_witness :
    ((normalize_patient_notes_row
        { lch_upn := "Joycelynn Harris", recording_time := some "02:30:00",
          time_note := "Alert" }).call_time_seconds = some 900 ∧
      (normalize_patient_notes_row
        { lch_upn := "Joycelynn Harris", recording_time := some "02:30:00",
          time_note := "Alert" }).temp_note_type = "Initial Evaluation") ∧
    (normalize_patient_notes_row
        { lch_upn := "Melanie Coffey", recording_time := none,
          time_note := "Follow-up, Check-up" }).temp_note_type = "Initial Evaluation" ∧
    (normalize_patient_notes_row
        { lch_upn := "Rigel Sagayno", recording_time := none,
          time_note := "Follow-up" }).temp_note_type = "Alert" :=
  ⟨(C10_note_overrides _).1 rfl,
   (C10_note_overrides _).2.1 (Or.inl rfl),
   (C10_note_overrides _).2.2 (Or.inr (Or.inr (Or.inr (Or.inr rfl))))⟩

/-- C9 witness: the theorem applied at one failing and one succeeding
concrete outcome. -/
theorem C9_execute_query_witness :
    (execute_query (.failure "connection reset")).result = none ∧
    ((execute_query (.success true ["row1"])).result = some ["row1"] ↔ true = true) :=
  ⟨(C9_execute_query.1 "connection reset").1,
   (C9_execute_query.2.1 true ["row1"]).2.2⟩

/- ---------------------------------------------------------------- -/
/- C8: primary payer fallback.                                      -/
/- ---------------------------------------------------------------- -/

/-- The row.replace of the literal regex (?i)nan anchored at both ends that
both payer fill functions apply before their null checks: a cell whose
whole text is nan in any letter case becomes the missing value. -/
def nanNorm (cell : Option String) : Option String :=
  match cell with
  | none => none
  | some s => if pyLower s = "nan" then none else some s

/-- The insurance columns one patient row carries into lines 374-375 of
normalize_patients: primary insurance name and id, and the Medicare
beneficiary id. -/
structure InsuranceRow where
  insName : Option String
  insId : Option String
  mbi : Option String
  deriving DecidableEq, Repr

/-- Embeds fill_primary_payer (src/utils/dataframe_utils.py, 173-187): after
the nan-replacement, if insurance name and id are both null and the
Medicare beneficiary id is not, the name becomes Medicare Part B; otherwise
the (replaced) name is returned. -/
def fill_primary_payer (row : InsuranceRow) : Option String :=
  let n := nanNorm row.insName
  let i := nanNorm row.insId
  let m := nanNorm row.mbi
  if n = none ∧ i = none ∧ m ≠ none then some "Medicare Part B" else n

/-- Embeds fill_primary_payer_id (src/utils/dataframe_utils.py, 190-204):
after the nan-replacement, if the insurance name reads Medicare Part B and
the id is null, the id becomes the Medicare beneficiary id; otherwise the
(replaced) id is returned. -/
def fill_primary_payer_id (row : InsuranceRow) : Option String :=
  let n := nanNorm row.insName
  let i := nanNorm row.insId
  if n = some "Medicare Part B" ∧ i = none then nanNorm row.mbi else i

/-- Embeds lines 374-375 of normalize_patients: the name column is assigned
from fill_primary_payer first, and fill_primary_payer_id then reads the
updated name. -/
def apply_payer_fill (row : InsuranceRow) : InsuranceRow :=
  let row1 : InsuranceRow := { row with insName := fill_primary_payer row }
  { row1 with insId := fill_primary_payer_id row1 }

theorem nanNorm_of_eq_some (c : Option String) (s : String) (h : nanNorm c = some s) :
    nanNorm (some s) = some s := by
  cases c with
  | none => simp [nanNorm] at h
  | some t =>
    by_cases ht : pyLower t = "nan"
    · simp [nanNorm, ht] at h
    · simp [nanNorm, ht] at h
      rw [← h]
      simp [nanNorm, ht]

/-- A row whose recorded primary payer name is Medicare Part B, with a
missing payer id and a Medicare beneficiary id present. -/
def c8RowMedicareName : InsuranceRow :=
  { insName := some "Medicare Part B", insId := none, mbi := some "1EG4TE5MK73" }

/-- A row whose payer name arrives as the standardized missing text Nan,
with a missing payer id and a Medicare beneficiary id present. -/
def c8RowMissingPayer : InsuranceRow :=
  { insName := some "Nan", insId := none, mbi := some "1EG4TE5MK73" }

/-- A row with a fully recorded payer. -/
def c8RowRecordedPayer : InsuranceRow :=
  { insName := some "Aetna", insId := some "A12B34C56", mbi := some "1EG4TE5MK73" }

/-- C8, counterexample: a row whose recorded primary payer name is Medicare
Part B, with a missing payer id and a Medicare beneficiary id present, has
a recorded payer, yet its payer id does not pass through unchanged — the id
is filled with the beneficiary id. -/
theorem C8_primary_payer_counterexample :
    (apply_payer_fill c8RowMedicareName).insId = some "1EG4TE5MK73" ∧
      some "1EG4TE5MK73" ≠ c8RowMedicareName.insId :=
  ⟨rfl, by decide⟩

/-- C8 (amended): for every row in which both the primary insurance name and
id are missing (null, or the literal text nan in any case) and a Medicare
beneficiary id is present, the fill assigns Medicare Part B as the payer
name and then fills the payer id with the beneficiary id; a row with a
recorded payer name and a recorded payer id passes both through unchanged; a
row with a recorded payer name other than Medicare Part B also passes its
(possibly missing) id through unchanged; but a row whose name reads Medicare
Part B with a missing id gets its id filled with the beneficiary id. -/
theorem C8_primary_payer :
    (∀ (row : InsuranceRow) (m : String),
      nanNorm row.insName = none → nanNorm row.insId = none → nanNorm row.mbi = some m →
      (apply_payer_fill row).insName = some "Medicare Part B" ∧
        (apply_payer_fill row).insId = some m) ∧
    (∀ (row : InsuranceRow) (n i : String),
      nanNorm row.insName = some n → nanNorm row.insId = some i →
      (apply_payer_fill row).insName = some n ∧ (apply_payer_fill row).insId = some i) ∧
    (∀ (row : InsuranceRow) (n : String),
      nanNorm row.insName = some n → n ≠ "Medicare Part B" →
      (apply_payer_fill row).insName = some n ∧
        (apply_payer_fill row).insId = nanNorm row.insId) ∧
    (∀ row : InsuranceRow,
      nanNorm row.insName = some "Medicare Part B" → nanNorm row.insId = none →
      (apply_payer_fill row).insId = nanNorm row.mbi) := by
  have hmpb : nanNorm (some "Medicare Part B") = some "Medicare Part B" := rfl
  refine ⟨?_, ?_, ?_, ?_⟩
  · intro row m h1 h2 h3
    constructor <;>
      simp [apply_payer_fill, fill_primary_payer, fill_primary_payer_id, h1, h2, h3, hmpb]
  · intro row n i h1 h2
    have hn : nanNorm (some n) = some n := nanNorm_of_eq_some _ _ h1
    constructor <;>
      simp [apply_payer_fill, fill_primary_payer, fill_primary_payer_id, h1, h2, hn]
  · intro row n h1 hn2
    have hn : nanNorm (some n) = some n := nanNorm_of_eq_some _ _ h1
    constructor <;>
      simp [apply_payer_fill, fill_primary_payer, fill_primary_payer_id, h1, hn, hn2]
  · intro row h1 h2
    simp [apply_payer_fill, fill_primary_payer, fill_primary_payer_id, h1, h2, hmpb]

/-- C8 witness: the theorem applied at a row with missing payer (the
missing name arriving as the standardized text Nan) and at a row with a
fully recorded payer. -/
theorem C8_primary_payer_witness :
    ((apply_payer_fill c8RowMissingPayer).insName = some "Medicare Part B" ∧
      (apply_payer_fill c8RowMissingPayer).insId = some "1EG4TE5MK73") ∧
    ((apply_payer_fill c8RowRecordedPayer).insName = some "Aetna" ∧
      (apply_payer_fill c8RowRecordedPayer).insId = some "A12B34C56") :=
  ⟨C8_primary_payer.1 c8RowMissingPayer "1EG4TE5MK73" rfl rfl rfl,
   C8_primary_payer.2.1 c8RowRecordedPayer "Aetna" "A12B34C56" rfl rfl⟩

/- ---------------------------------------------------------------- -/
/- C3: standardize_race and the keyword searches.                   -/
/- ---------------------------------------------------------------- -/

/-- Python regex word characters. -/
def isWordChar (c : Char) : Bool := c.isAlphanum || c = '_'

/-- Word-character status of an optional adjacent character; outside the
string counts as not a word character. -/
def wordish : Option Char → Bool
  | none => false
  | some c => isWordChar c

/-- A regex word boundary stands where the word-character status of the two
adjacent positions differs. -/
def boundaryOk (l r : Option Char) : Bool := wordish l != wordish r

/-- The pattern backslash-b <literal keyword> backslash-b matches at
position i of v (keywords are regex-escaped in the source, hence literal;
every configured keyword is nonempty). -/
def searchWordAt (k v : List Char) (i : Nat) : Bool :=
  ((v.drop i).take k.length = k) &&
  boundaryOk (if i = 0 then none else v[i - 1]?) k.head? &&
  boundaryOk k.getLast? v[i + k.length]?

/-- re.search of the word-bounded literal keyword anywhere in v. -/
def searchWord (k v : List Char) : Bool :=
  (List.range (v.length + 1)).any (fun i => searchWordAt k v i)

/-- Embeds keyword_search (src/utils/dataframe_utils.py, 10-24): the first
dict entry whose keyword occurs word-bounded in the lowered value wins; on
no match the original value is kept or the missing marker is returned. -/
def keyword_search (keywords : List (String × String)) (value : String)
    (keep_original : Bool) : Option String :=
  match keywords.find? (fun kv => searchWord kv.2.data (pyLower value).data) with
  | some kv => some kv.1
  | none => if keep_original then some value else none

/-- Whether one entry of a keyword-group vocabulary matches the value: some
group of the entry has all its keywords word-bounded in the lowered value. -/
def groupEntryMatches (kv : String × List (List String)) (value : String) : Bool :=
  kv.2.any (fun ks => ks.all (fun k => searchWord k.data (pyLower value).data))

/-- Embeds keyword_list_search (src/utils/dataframe_utils.py, 27-43): the
first entry one of whose keyword groups matches entirely wins; on no match
the original value is kept or the missing marker is returned. -/
def keyword_list_search (keywords : List (String × List (List String)))
    (value : String) (keep_original : Bool) : Option String :=
  match keywords.find? (fun kv => groupEntryMatches kv value) with
  | some kv => some kv.1
  | none => if keep_original then some value else none

/-- Modelled from the spec: utils/enums.py, which defines race_keywords, is
not present under src/. Per the spec (sections 4.1 and 9) it is an ordered
association list mapping canonical race names to keyword groups, a group
matching only when all its keywords are present. A representative
vocabulary is used here; the general theorem below holds for every
vocabulary. -/
def race_keywords : List (String × List (List String)) :=
  [("White", [["white"], ["caucasian"]]),
   ("Black or African American", [["black"], ["african", "american"]]),
   ("Asian", [["asian"]]),
   ("American Indian or Alaska Native", [["american", "indian"], ["alaska", "native"]]),
   ("Unknown", [["unknown"]])]

/-- Core of standardize_race with the vocabulary as a parameter: trim and
title-case, then keyword-group search with keep_original set, so the result
is always a string (src/utils/dataframe_utils.py, 271-284). -/
def standardize_race_with (keywords : List (String × List (List String)))
    (race : String) : Option String :=
  keyword_list_search keywords (pyTitle (pyStrip race)) true

/-- Embeds standardize_race (src/utils/dataframe_utils.py, 271-284). -/
def standardize_race (race : String) : Option String :=
  standardize_race_with race_keywords race

/-- C3, counterexample: Martian matches no configured race keyword group,
and standardize_race returns the title-cased input Martian, not Unknown. -/
theorem C3_race_counterexample :
    (∀ kv ∈ race_keywords, groupEntryMatches kv (pyTitle (pyStrip "Martian")) = false) ∧
    standardize_race "Martian" = some "Martian" ∧
    some "Martian" ≠ some "Unknown" := by
  refine ⟨by decide, by decide, by decide⟩

/-- C3 (amended): keyword_list_search is called with keep_original, so for
every vocabulary and every input string in which no keyword group fully
matches the trimmed title-cased input, standardize_race returns that
trimmed title-cased input unchanged — not Unknown. The repo test input
unknown maps to Unknown only because title-casing the literal input
produces it. -/
theorem C3_race_fallback :
    (∀ (keywords : List (String × List (List String))) (race : String),
      (∀ kv ∈ keywords, groupEntryMatches kv (pyTitle (pyStrip race)) = false) →
      standardize_race_with keywords race = some (pyTitle (pyStrip race))) ∧
    standardize_race "unknown" = some "Unknown" ∧
    standardize_race "Martian" = some "Martian" := by
  refine ⟨?_, by decide, by decide⟩
  intro keywords race h
  unfold standardize_race_with keyword_list_search
  rw [List.find?_eq_none.mpr (fun kv hkv => by simp [h kv hkv])]
  rfl

/-- C3 witness: the amended theorem applied at the modelled vocabulary and
the input Martian, which matches no keyword group. -/
theorem C3_race_fallback_witness :
    standardize_race_with race_keywords "Martian" = some (pyTitle (pyStrip "Martian")) :=
  C3_race_fallback.1 race_keywords "Martian" (by decide)

/- ---------------------------------------------------------------- -/
/- C2: emergency-contact shaping.                                   -/
/- ---------------------------------------------------------------- -/

/-- Collapse every maximal whitespace run to a single space (re.sub of one
or more whitespace characters with one space); the flag records whether the
previous character was whitespace. -/
def collapseSpacesGo : Bool → List Char → List Char
  | _, [] => []
  | inRun, c :: rest =>
    if pyIsSpace c then
      if inRun then collapseSpacesGo true rest
      else ' ' :: collapseSpacesGo true rest
    else c :: collapseSpacesGo false rest

/-- Embeds standardize_name (src/utils/dataframe_utils.py, 63-78):
str(name).strip().title(), whitespace runs collapsed to one space, then
every character outside the allow-list removed (re.sub of the inverse
class with the empty string). -/
def standardize_name (allowed : Char → Bool) (name : String) : String :=
  String.mk ((collapseSpacesGo false (pyTitleGo false (pyStripList name.data))).filter allowed)

/-- The allow-list of the inverse class used for the emergency-contact name
columns (src 363 and 365): letters, whitespace, period, slash and
parentheses — inside the class the token period-hyphen-slash is the
two-character range from period to slash, so the hyphen itself is not in
the list. -/
def emNameAllowed (c : Char) : Bool :=
  c.isAlpha || pyIsSpace c || c = '.' || c = '/' || c = '(' || c = ')'

/-- astype(str) followed by removal of every non-digit character (the
phone-number columns, src 364 and 366): a missing cell prints as nan,
whose letters are all stripped, leaving the empty string. -/
def digitsOnly (s : String) : String := String.mk (s.data.filter Char.isDigit)

/-- Modelled from the spec: utils/enums.py, which defines
relationship_keywords, is not present under src/. Per the spec (sections
4.1 and 9) it is an ordered association list of canonical relationship
names with single keywords. A representative vocabulary is used; the
claim-deciding facts below do not depend on its exact entries. -/
def relationship_keywords : List (String × String) :=
  [("Spouse", "spouse"), ("Wife", "wife"), ("Husband", "husband"),
   ("Daughter", "daughter"), ("Son", "son"), ("Mother", "mother"),
   ("Father", "father"), ("Friend", "friend")]

/-- Embeds standardize_emcontact_relationship (src/utils/dataframe_utils.py,
256-268): trim and title-case, then single-keyword search with
keep_original unset, so an unmatched name yields the missing marker. -/
def standardize_emcontact_relationship (name : String) : Option String :=
  keyword_search relationship_keywords (pyTitle (pyStrip name)) false

/-- The emergency-contact columns of one raw patient-export row. -/
structure EmPatientRow where
  emergencyName : Option String
  emergencyNumber : Option String
  emergencyName2 : Option String
  emergencyNumber2 : Option String
  sharepoint_id : Nat
  deriving DecidableEq, Repr

/-- The same columns after normalize_patients. -/
structure EmNormalizedRow where
  emergency_full_name : Option String
  emergency_phone_number : Option String
  emergency_relationship : Option String
  emergency_full_name2 : Option String
  emergency_phone_number2 : Option String
  emergency_relationship2 : Option String
  sharepoint_id : Nat
  deriving DecidableEq, Repr

/-- Embeds the emergency-contact part of normalize_patients
(src/utils/dataframe_utils.py, 361-366 and the final nan-to-null replace at
424): relationships are derived from the original name columns first, the
name columns are then standardized, the number columns digit-stripped
through str(), and finally every cell whose whole text is nan in any case
becomes null. -/
def normalize_emcontact_fields (r : EmPatientRow) : EmNormalizedRow :=
  let rel1 := standardize_emcontact_relationship (strOfCell r.emergencyName)
  let rel2 := standardize_emcontact_relationship (strOfCell r.emergencyName2)
  let name1 := standardize_name emNameAllowed (strOfCell r.emergencyName)
  let num1 := digitsOnly (strOfCell r.emergencyNumber)
  let name2 := standardize_name emNameAllowed (strOfCell r.emergencyName2)
  let num2 := digitsOnly (strOfCell r.emergencyNumber2)
  { emergency_full_name := nanNorm (some name1)
    emergency_phone_number := nanNorm (some num1)
    emergency_relationship := nanNorm rel1
    emergency_full_name2 := nanNorm (some name2)
    emergency_phone_number2 := nanNorm (some num2)
    emergency_relationship2 := nanNorm rel2
    sharepoint_id := r.sharepoint_id }

/-- One row of the shaped emergency-contact table. -/
structure EmContactRow where
  full_name : Option String
  phone_number : Option String
  relationship : Option String
  sharepoint_id : Nat
  deriving DecidableEq, Repr

/-- Embeds create_emcontacts_df (src/utils/dataframe_utils.py, 480-505):
the primary-contact projection and the secondary-contact projection are
concatenated (pd.concat stacks the first frame, then the second) and rows
whose full_name or phone_number cell is null are dropped (dropna on that
subset). -/
def create_emcontacts_df (df : List EmNormalizedRow) : List EmContactRow :=
  let df1 := df.map (fun r =>
    EmContactRow.mk r.emergency_full_name r.emergency_phone_number
      r.emergency_relationship r.sharepoint_id)
  let df2 := df.map (fun r =>
    EmContactRow.mk r.emergency_full_name2 r.emergency_phone_number2
      r.emergency_relationship2 r.sharepoint_id)
  (df1 ++ df2).filter (fun c => c.full_name.isSome && c.phone_number.isSome)

/-- The contact row the primary projection produces for a raw row. -/
def primaryContactOf (r : EmPatientRow) : EmContactRow :=
  { full_name := nanNorm (some (standardize_name emNameAllowed (strOfCell r.emergencyName)))
    phone_number := nanNorm (some (digitsOnly (strOfCell r.emergencyNumber)))
    relationship := nanNorm (standardize_emcontact_relationship (strOfCell r.emergencyName))
    sharepoint_id := r.sharepoint_id }

/-- A raw export row whose secondary contact has a name but no phone
number. -/
def c2MissingPhoneRow : EmPatientRow :=
  { emergencyName := some "Jane Doe"
    emergencyNumber := some "123-456-7890"
    emergencyName2 := some "John Smith"
    emergencyNumber2 := none
    sharepoint_id := 7 }

/-- C2, counterexample: a patient-export row in which only the secondary
contact's phone number is missing yields two contact rows, not one — the
missing phone prints as nan through str(), digit-stripping turns it into
the empty string, and the empty string is not null, so dropna keeps the
secondary row. -/
theorem C2_emcontacts_counterexample :
    create_emcontacts_df [normalize_emcontact_fields c2MissingPhoneRow] =
      [{ full_name := some "Jane Doe", phone_number := some "1234567890",
         relationship := none, sharepoint_id := 7 },
       { full_name := some "John Smith", phone_number := some "",
         relationship := none, sharepoint_id := 7 }] ∧
    (create_emcontacts_df [normalize_emcontact_fields c2MissingPhoneRow]).length ≠ 1 := by
  refine ⟨by decide, by decide⟩

/-- C2 (amended): every contact row whose name or phone cell is null is
removed from the shaped table entirely; a source row whose secondary
contact name is missing yields at most the primary row (the missing name
standardizes to Nan and is nulled, so the secondary row is dropped); but a
source row missing only the secondary phone number yields two rows — the
secondary survives carrying an empty-string phone, because str() of the
missing value followed by digit-stripping leaves the empty string, which
dropna does not treat as null. -/
theorem C2_emcontacts :
    (∀ (df : List EmNormalizedRow) (c : EmContactRow), c ∈ create_emcontacts_df df →
      c.full_name.isSome = true ∧ c.phone_number.isSome = true) ∧
    (∀ r : EmPatientRow, r.emergencyName2 = none →
      create_emcontacts_df [normalize_emcontact_fields r] =
        List.filter (fun c => c.full_name.isSome && c.phone_number.isSome)
          [primaryContactOf r]) ∧
    (create_emcontacts_df [normalize_emcontact_fields c2MissingPhoneRow]).length = 2 := by
  refine ⟨?_, ?_, by decide⟩
  · intro df c hc
    unfold create_emcontacts_df at hc
    simp only [] at hc
    have := List.of_mem_filter hc
    constructor
    · exact (Bool.and_eq_true _ _ ▸ this).1
    · exact (Bool.and_eq_true _ _ ▸ this).2
  · intro r h
    have h2 : nanNorm (some (standardize_name emNameAllowed (strOfCell (none : Option String)))) =
        none := rfl
    unfold create_emcontacts_df normalize_emcontact_fields primaryContactOf
    simp only [h, List.map_cons, List.map_nil, List.cons_append, List.nil_append,
      List.filter_cons, List.filter_nil, h2]
    rfl

/-- A raw export row whose secondary contact is entirely missing. -/
def c2MissingNameRow : EmPatientRow :=
  { emergencyName := some "Jane Doe"
    emergencyNumber := some "123-456-7890"
    emergencyName2 := none
    emergencyNumber2 := some "098-765-4321"
    sharepoint_id := 9 }

/-- C2 witness: the theorem applied at the concrete shaped table of the
missing-phone row (whose first contact indeed has name and phone present)
and at a concrete raw row with a missing secondary name. -/
theorem C2_emcontacts_witness :
    ((⟨some "Jane Doe", some "1234567890", none, 7⟩ : EmContactRow).full_name.isSome = true ∧
      (⟨some "Jane Doe", some "1234567890", none, 7⟩ : EmContactRow).phone_number.isSome = true) ∧
    create_emcontacts_df [normalize_emcontact_fields c2MissingNameRow] =
      List.filter (fun c => c.full_name.isSome && c.phone_number.isSome)
        [primaryContactOf c2MissingNameRow] :=
  ⟨C2_emcontacts.1 [normalize_emcontact_fields c2MissingPhoneRow]
      ⟨some "Jane Doe", some "1234567890", none, 7⟩ (by decide),
   C2_emcontacts.2.1 c2MissingNameRow rfl⟩
